import Mathlib

/-!
Verification development for the Superstore analytics dashboard (`src/app.py`).

The file shallowly embeds the chart-specification pipeline: the block of the
chart-creation handler that takes the raw model output string, strips it,
applies the empty-response gate, extracts the substring between the first
opening brace and the last closing brace, parses it as JSON, reads the five
spec fields with defaults, validates the x and y fields against the dataframe
columns, and builds the Altair encodings and mark.

Python library behaviour that the handler relies on is modelled explicitly:
`str.strip`, `str.find`/`str.rfind`, slicing, `json.loads`, `dict.get`,
`str.capitalize`, and Python truthiness of decoded JSON values.
-/

namespace SuperstoreApp

/-- A decoded JSON value, as produced by the handler's `json.loads` call.
Numbers are kept exactly as a decimal mantissa and a power-of-ten exponent
(value `m * 10 ^ e`); `obj` keeps the key/value pairs in source order, with
duplicate keys resolved last-wins on lookup like a Python dict. -/
inductive Json where
  | null
  | bool (b : Bool)
  | num (m : Int) (e : Int)
  | str (s : String)
  | arr (elems : List Json)
  | obj (fields : List (String × Json))
  deriving Repr

/-- JSON insignificant whitespace (RFC 8259): space, tab, line feed, carriage return. -/
def isJsonWs (c : Char) : Bool :=
  c = ' ' || c = '\t' || c = '\n' || c = '\r'

/-- Drop leading JSON whitespace. -/
def skipWs (cs : List Char) : List Char :=
  cs.dropWhile isJsonWs

/-- Value of a hexadecimal digit, for `\u` escapes. -/
def hexVal (c : Char) : Option Nat :=
  if '0' ≤ c ∧ c ≤ '9' then some (c.toNat - 48)
  else if 'a' ≤ c ∧ c ≤ 'f' then some (c.toNat - 87)
  else if 'A' ≤ c ∧ c ≤ 'F' then some (c.toNat - 55)
  else none

/-- Parse the body of a JSON string literal, the opening quote already
consumed; returns the decoded string and the rest of the input. Escape
sequences follow RFC 8259; a `\u` escape is decoded as a single code point
(surrogate-pair recombination is not modelled — no input in this development
uses surrogates). Raw control characters are rejected, as Python's strict
`json.loads` does. -/
def parseStringBody : List Char → List Char → Option (String × List Char)
  | [], _ => none
  | '"' :: rest, acc => some (String.mk acc.reverse, rest)
  | '\\' :: '"' :: rest, acc => parseStringBody rest ('"' :: acc)
  | '\\' :: '\\' :: rest, acc => parseStringBody rest ('\\' :: acc)
  | '\\' :: '/' :: rest, acc => parseStringBody rest ('/' :: acc)
  | '\\' :: 'b' :: rest, acc => parseStringBody rest ('\x08' :: acc)
  | '\\' :: 'f' :: rest, acc => parseStringBody rest ('\x0c' :: acc)
  | '\\' :: 'n' :: rest, acc => parseStringBody rest ('\n' :: acc)
  | '\\' :: 'r' :: rest, acc => parseStringBody rest ('\r' :: acc)
  | '\\' :: 't' :: rest, acc => parseStringBody rest ('\t' :: acc)
  | '\\' :: 'u' :: h1 :: h2 :: h3 :: h4 :: rest, acc =>
    match hexVal h1, hexVal h2, hexVal h3, hexVal h4 with
    | some a, some b, some c, some d =>
      parseStringBody rest (Char.ofNat (((a * 16 + b) * 16 + c) * 16 + d) :: acc)
    | _, _, _, _ => none
  | '\\' :: _, _ => none
  | c :: rest, acc =>
    if c.toNat < 32 then none else parseStringBody rest (c :: acc)

/-- Numeric value of a list of decimal digit characters. -/
def digitsVal (ds : List Char) : Nat :=
  ds.foldl (fun n d => n * 10 + (d.toNat - 48)) 0

/-- Parse an optional exponent part and finish a JSON number whose value so
far is `(if neg then -m else m) * 10 ^ e`. -/
def parseExpPart (neg : Bool) (m : Nat) (e : Int) (cs : List Char) :
    Option (Json × List Char) :=
  let mi : Int := if neg then -(m : Int) else (m : Int)
  match cs with
  | c :: r =>
    if c = 'e' ∨ c = 'E' then
      let sign : Int × List Char :=
        match r with
        | '+' :: rr => (1, rr)
        | '-' :: rr => (-1, rr)
        | _ => (1, r)
      let eds := sign.2.takeWhile Char.isDigit
      let r2 := sign.2.dropWhile Char.isDigit
      if eds = [] then none
      else some (.num mi (e + sign.1 * (digitsVal eds : Int)), r2)
    else some (.num mi e, cs)
  | [] => some (.num mi e, [])

/-- Parse a JSON number (RFC 8259 grammar: optional minus, integer part with
no leading zeros, optional fraction, optional exponent). -/
def parseNumber (cs : List Char) : Option (Json × List Char) :=
  let negSplit : Bool × List Char :=
    match cs with
    | '-' :: r => (true, r)
    | _ => (false, cs)
  let neg := negSplit.1
  let cs1 := negSplit.2
  match cs1 with
  | c :: _ =>
    if c.isDigit then
      let ids := cs1.takeWhile Char.isDigit
      let r1 := cs1.dropWhile Char.isDigit
      if ids.head? = some '0' ∧ ids.length > 1 then none
      else
        let i := digitsVal ids
        match r1 with
        | '.' :: r2 =>
          let fds := r2.takeWhile Char.isDigit
          let r3 := r2.dropWhile Char.isDigit
          if fds = [] then none
          else parseExpPart neg (i * 10 ^ fds.length + digitsVal fds)
            (-(fds.length : Int)) r3
        | _ => parseExpPart neg i 0 r1
    else none
  | [] => none

mutual

/-- Parse one JSON value from the input, fuel-bounded recursive descent.
The fuel only limits nesting/member recursion; `jsonLoads` supplies enough
fuel for any input it is called on. -/
def parseValue : Nat → List Char → Option (Json × List Char)
  | 0, _ => none
  | Nat.succ fuel, cs =>
    match skipWs cs with
    | '\x7b' :: rest => parseObjBody fuel rest
    | '[' :: rest => parseArrBody fuel rest
    | '"' :: rest =>
      match parseStringBody rest [] with
      | some (s, r) => some (.str s, r)
      | none => none
    | 't' :: 'r' :: 'u' :: 'e' :: rest => some (.bool true, rest)
    | 'f' :: 'a' :: 'l' :: 's' :: 'e' :: rest => some (.bool false, rest)
    | 'n' :: 'u' :: 'l' :: 'l' :: rest => some (.null, rest)
    | rest => parseNumber rest

/-- Parse an object body, the opening brace already consumed. -/
def parseObjBody : Nat → List Char → Option (Json × List Char)
  | 0, _ => none
  | Nat.succ fuel, cs =>
    match skipWs cs with
    | '\x7d' :: rest => some (.obj [], rest)
    | rest => parseMembers fuel rest []

/-- Parse a non-empty comma-separated list of object members up to the
closing brace; trailing commas are rejected, as in Python's `json.loads`. -/
def parseMembers : Nat → List Char → List (String × Json) →
    Option (Json × List Char)
  | 0, _, _ => none
  | Nat.succ fuel, cs, acc =>
    match skipWs cs with
    | '"' :: rest =>
      match parseStringBody rest [] with
      | none => none
      | some (k, r1) =>
        match skipWs r1 with
        | ':' :: r2 =>
          match parseValue fuel r2 with
          | none => none
          | some (v, r3) =>
            match skipWs r3 with
            | ',' :: r4 => parseMembers fuel r4 (acc ++ [(k, v)])
            | '\x7d' :: r4 => some (.obj (acc ++ [(k, v)]), r4)
            | _ => none
        | _ => none
    | _ => none

/-- Parse an array body, the opening bracket already consumed. -/
def parseArrBody : Nat → List Char → Option (Json × List Char)
  | 0, _ => none
  | Nat.succ fuel, cs =>
    match skipWs cs with
    | ']' :: rest => some (.arr [], rest)
    | rest => parseItems fuel rest []

/-- Parse a non-empty comma-separated list of array items up to the closing
bracket. -/
def parseItems : Nat → List Char → List Json → Option (Json × List Char)
  | 0, _, _ => none
  | Nat.succ fuel, cs, acc =>
    match parseValue fuel cs with
    | none => none
    | some (v, r1) =>
      match skipWs r1 with
      | ',' :: r2 => parseItems fuel r2 (acc ++ [v])
      | ']' :: r2 => some (.arr (acc ++ [v]), r2)
      | _ => none

end

/-- The handler's `json.loads(raw_json)`: parse the whole input as a single
JSON value, allowing surrounding whitespace only; `none` models the
`json.JSONDecodeError` caught by the handler. Three fuel units per input
character over-approximate the recursion the descent can perform. -/
def jsonLoads (cs : List Char) : Option Json :=
  match parseValue (3 * cs.length + 3) cs with
  | some (v, rest) => if skipWs rest = [] then some v else none
  | none => none

/-- Python `str.strip()` whitespace, restricted to the ASCII whitespace
characters (the inputs of this development are ASCII). -/
def isPySpace (c : Char) : Bool :=
  c = ' ' || c = '\t' || c = '\n' || c = '\r' || c = '\x0b' || c = '\x0c'

/-- Python `str.strip()` on the handler's raw model output (`resp.text.strip()`):
remove leading and trailing whitespace. -/
def pyStrip (cs : List Char) : List Char :=
  ((cs.dropWhile isPySpace).reverse.dropWhile isPySpace).reverse

/-- Python `str.find(ch)`: index of the first occurrence, `none` for the
sentinel `-1`. -/
def pyFind : List Char → Char → Option Nat
  | [], _ => none
  | c :: rest, t => if c = t then some 0 else (pyFind rest t).map (· + 1)

/-- Python `str.rfind(ch)`: index of the last occurrence, `none` for `-1`. -/
def pyRfind (cs : List Char) (t : Char) : Option Nat :=
  (pyFind cs.reverse t).map (fun i => cs.length - 1 - i)

/-- Python slice `s[a:b]` for nonnegative bounds, as used in
`raw[start : end + 1]`. -/
def pySlice (cs : List Char) (a b : Nat) : List Char :=
  (cs.drop a).take (b - a)

/-- Python `str.capitalize()`: first character uppercased, the rest
lowercased — used for the aggregated y-axis title. -/
def pyCapitalize (s : String) : String :=
  match s.toList with
  | [] => ""
  | c :: rest => String.mk (c.toUpper :: rest.map Char.toLower)

/-- Python truthiness of a `json.loads` value, as tested by `if agg:` and
`if color ...`: `None`, `False`, zero, and empty strings/lists/dicts are
falsy; everything else is truthy. -/
def truthy : Json → Bool
  | .null => false
  | .bool b => b
  | .num m _ => m != 0
  | .str s => s != ""
  | .arr elems => !elems.isEmpty
  | .obj fields => !fields.isEmpty

/-- Lookup in the decoded object's key/value list with Python dict
semantics: a repeated key keeps its last value. -/
def lookupLast (fields : List (String × Json)) (k : String) : Option Json :=
  fields.foldl (fun acc p => if p.1 = k then some p.2 else acc) none

/-- Python `spec.get(key, default)` on the decoded object. -/
def specGet (fields : List (String × Json)) (k : String) (dflt : Json) : Json :=
  (lookupLast fields k).getD dflt

/-- The five fields the handler reads from the decoded spec, before any
validation (source lines 206-210). The values are kept as decoded JSON: the
model may supply a non-string where a string is expected, and the handler
only rules that out for x and y (via column membership). -/
structure Directive where
  chart_type : Json
  x : Json
  y : Json
  color : Json
  agg : Json
  deriving Repr

/-- Field extraction with defaults, exactly the handler's `spec.get` calls:
`chart_type` defaults to "bar", `x` to "Category", `y` to "Sales", `color`
to null, `aggregate` to "sum". The default applies only when the key is
absent from the decoded object. -/
def extractFields (fields : List (String × Json)) : Directive :=
  { chart_type := specGet fields "chart_type" (.str "bar")
    x := specGet fields "x" (.str "Category")
    y := specGet fields "y" (.str "Sales")
    color := specGet fields "color" .null
    agg := specGet fields "aggregate" (.str "sum") }

/-- Numeric columns of the catalog, as enumerated in the chart system prompt
(source lines 45) and spec section 3. -/
def numericColumns : List String := ["Sales", "Profit", "Quantity", "Discount"]

/-- Categorical columns of the catalog (source line 46, spec section 3). -/
def categoricalColumns : List String :=
  ["Region", "Segment", "Category", "Sub-Category", "Ship Mode"]

/-- Temporal columns of the catalog (spec section 3). -/
def temporalColumns : List String := ["Order Date", "Ship Date"]

/-- The catalog's known columns: the union of the numeric, categorical and
temporal sets. -/
def catalogColumns : List String :=
  numericColumns ++ categoricalColumns ++ temporalColumns

/-- Modelled from the spec: the Excel dataset behind `filtered.columns` is
not part of the source tree. Spec section 6 requires the Orders sheet to
contain at least these columns, and the source indexes every one of them
(lines 57-58, 77, 80, 103-106, 262-274). The working dataframe's column
labels therefore include this list; any further columns of the spreadsheet
are not needed by the claims. -/
def dfColumns : List String :=
  ["Order Date", "Ship Date", "Region", "Segment", "Category", "Sub-Category",
   "Ship Mode", "Sales", "Profit", "Quantity", "Discount", "Order ID"]

/-- Pandas dtype classification relevant to the x-encoding branch of the
handler: datetime64 columns, object (string) columns, and everything else
(numeric). -/
inductive Dtype where
  | datetime
  | object
  | numeric
  deriving Repr, DecidableEq

/-- Modelled from the spec: per-column dtypes of the working dataframe.
`load_data` converts Order Date and Ship Date to datetime (source lines
57-58); the categorical columns and Order ID hold strings, hence pandas
object dtype; Sales, Profit, Quantity and Discount are numeric (spec
sections 3 and 6). -/
def dtypeOf (c : String) : Dtype :=
  if c = "Order Date" ∨ c = "Ship Date" then .datetime
  else if ["Region", "Segment", "Category", "Sub-Category", "Ship Mode",
      "Order ID"].contains c then .object
  else .numeric

/-- Errors surfaced by the chart-creation handler. `emptyResponse`,
`noJsonFound` and `malformedJson` are the `ValueError`s and
`json.JSONDecodeError` caught by the `except` block; `unknownColumn`
carries the x and y payload of the invalid-fields `st.error` message
(line 213); `typeError` is the `TypeError` raised by hashing an unhashable
value inside a pandas membership test (lines 212 and 231), also caught by
the `except` block; `renderError` models any other exception reaching the
`except` block (it never arises on validated directives). -/
inductive ChartError where
  | emptyResponse
  | noJsonFound
  | malformedJson
  | unknownColumn (x y : Json)
  | typeError
  | renderError
  deriving Repr

/-- Hashability of a decoded JSON value in Python: lists and dicts are
unhashable; null, booleans, numbers and strings are hashable. -/
def pyHashable : Json → Bool
  | .arr _ => false
  | .obj _ => false
  | _ => true

/-- Membership test `v in filtered.columns` (pandas Index containment).
Pandas hashes the key before the lookup, so an unhashable value (a decoded
JSON list or object) raises `TypeError` rather than answering the test; a
hashable non-string value is never a column label; a string is a member
exactly when it equals one of the labels. -/
def inColumnsChk (v : Json) (cols : List String) : Except ChartError Bool :=
  match v with
  | .arr _ => .error .typeError
  | .obj _ => .error .typeError
  | .str s => .ok (cols.contains s)
  | _ => .ok false

/-- The handler's validation condition (source line 212),
`x not in filtered.columns or y not in filtered.columns`, with Python's
left-to-right short-circuit: the x membership test runs first (and may
raise), and the y membership test runs only when x is a member. The result
is true exactly when the request is rejected with the invalid-fields
message. -/
def invalidFields (x y : Json) (cols : List String) : Except ChartError Bool :=
  match inColumnsChk x cols with
  | .error e => .error e
  | .ok bx =>
    if bx then
      match inColumnsChk y cols with
      | .error e => .error e
      | .ok b => .ok (!b)
    else .ok true

/-- The validation step of the handler (source lines 212-213) on an
extracted directive: reject with the invalid-fields error when x or y is
not a dataframe column, propagate a `TypeError` from the membership tests,
and hand the directive on otherwise. -/
def validateDirective (d : Directive) (cols : List String) :
    Except ChartError Directive :=
  match invalidFields d.x d.y cols with
  | .error e => .error e
  | .ok true => .error (.unknownColumn d.x d.y)
  | .ok false => .ok d

/-- Altair mark chosen by the handler (source lines 234-239). -/
inductive Mark where
  | bar
  | line
  | scatter
  deriving Repr, DecidableEq

/-- Mark selection: `mark_line(point=True)` when `chart_type == "line"`,
`mark_point()` when `chart_type == "scatter"`, `mark_bar()` otherwise. A
non-string decoded value compares unequal to both literals. -/
def chartMark : Json → Mark
  | .str s => if s = "line" then .line else if s = "scatter" then .scatter else .bar
  | _ => .bar

/-- The x-encoding shorthand (source lines 218-223): a datetime64 column is
encoded at temporal level, an object-dtype column at nominal level, any
other column at quantitative level. -/
def xShorthand (c : String) : String :=
  match dtypeOf c with
  | .datetime => c ++ ":T"
  | .object => c ++ ":N"
  | .numeric => c ++ ":Q"

/-- The y-encoding of the handler (source lines 226-229), returning the
shorthand string and the title. With a truthy aggregate the shorthand is
`agg(y):Q` and the title capitalizes the aggregate; with a falsy aggregate
the source's `alt.Y(f"\x7by\x7d):Q", title=y)` produces the literal
shorthand `y` followed by `):Q` — the parenthesis belongs to the string,
not the syntax. A truthy non-string aggregate raises `AttributeError` at
`.capitalize()` (caught by the handler), modelled as `renderError`; x/y
reaching this point are column-label strings. -/
def renderY (agg y : Json) : Except ChartError (String × String) :=
  if truthy agg then
    match agg, y with
    | .str a, .str ys => .ok (a ++ "(" ++ ys ++ "):Q", pyCapitalize a ++ " of " ++ ys)
    | _, _ => .error .renderError
  else
    match y with
    | .str ys => .ok (ys ++ "):Q", ys)
    | _ => .error .renderError

/-- The color encoding (source lines 231-232),
`if color and color in filtered.columns`: a falsy color short-circuits and
the channel is omitted without any membership test; a truthy color runs the
pandas membership test, which raises `TypeError` on an unhashable value;
the channel is added only when the test succeeds and answers yes (which
only a string can). -/
def renderColorChk (color : Json) (cols : List String) :
    Except ChartError (Option String) :=
  if truthy color then
    match inColumnsChk color cols with
    | .error e => .error e
    | .ok b =>
      if b then
        match color with
        | .str c => .ok (some (c ++ ":N"))
        | _ => .ok none
      else .ok none
  else .ok none

/-- The chart artifact the handler builds: mark, x/y/color encoding
shorthands and the y-axis title. -/
structure Chart where
  mark : Mark
  xEnc : String
  yEnc : String
  yTitle : String
  colorEnc : Option String
  deriving Repr

/-- The rendering half of the handler (source lines 215-249) on an extracted
directive, in source order: x encoding by dtype, y encoding by aggregate
(which may raise first), then the color channel (whose membership test may
raise), then mark by chart type. A non-string x cannot occur after
validation (membership holds only for strings); it is mapped to
`renderError`. -/
def renderDirective (d : Directive) (cols : List String) : Except ChartError Chart :=
  match d.x with
  | .str xs =>
    match renderY d.agg d.y with
    | .error e => .error e
    | .ok p =>
      match renderColorChk d.color cols with
      | .error e => .error e
      | .ok co =>
        .ok { mark := chartMark d.chart_type
              xEnc := xShorthand xs
              yEnc := p.1
              yTitle := p.2
              colorEnc := co }
  | _ => .error .renderError

/-- The parsing and validation steps of the handler (source lines 193-213)
on the already-stripped raw output: fail on empty, slice between the first
opening brace and the last closing brace (failing when either is absent),
`json.loads` the slice, extract the five fields with defaults, and reject
when x or y is not a dataframe column. A successful `json.loads` of the
slice is always an object, since a nonempty slice starts at an opening
brace; the non-object arm is unreachable. -/
def parseStripped (raw : List Char) (cols : List String) :
    Except ChartError Directive :=
  if raw.isEmpty then .error .emptyResponse
  else
    match pyFind raw '\x7b' with
    | none => .error .noJsonFound
    | some a =>
      match pyRfind raw '\x7d' with
      | none => .error .noJsonFound
      | some b =>
        match jsonLoads (pySlice raw a (b + 1)) with
        | none => .error .malformedJson
        | some (.obj fields) => validateDirective (extractFields fields) cols
        | some _ => .error .malformedJson

/-- The parsing and validation half of the handler (source lines 187-213):
`resp.text.strip()` followed by the gates of `parseStripped`. -/
def parseDirective (raw0 : String) (cols : List String) :
    Except ChartError Directive :=
  parseStripped (pyStrip raw0.toList) cols

/-- The whole chart-creation handler on a raw model output: parse and
validate, then render. -/
def createChart (raw0 : String) (cols : List String) : Except ChartError Chart :=
  match parseDirective raw0 cols with
  | .error e => .error e
  | .ok d => renderDirective d cols

/-- Stripping never invents characters: the stripped list is a sublist of
the original. -/
theorem pyStrip_sublist (cs : List Char) : (pyStrip cs).Sublist cs := by
  unfold pyStrip
  have h2 : (((cs.dropWhile isPySpace).reverse.dropWhile isPySpace)).Sublist
      (cs.dropWhile isPySpace).reverse := List.dropWhile_sublist _
  have h3 := h2.reverse
  rw [List.reverse_reverse] at h3
  exact h3.trans (List.dropWhile_sublist _)

/-- A character absent from the raw output is absent from its stripped form. -/
theorem not_mem_pyStrip {c : Char} {cs : List Char} (h : c ∉ cs) :
    c ∉ pyStrip cs :=
  fun hm => h ((pyStrip_sublist cs).subset hm)

/-- Python `find` returns the sentinel exactly when the character is absent. -/
theorem pyFind_eq_none {t : Char} : ∀ {cs : List Char}, t ∉ cs →
    pyFind cs t = none := by
  intro cs
  induction cs with
  | nil => intro _; rfl
  | cons c rest ih =>
    intro h
    have hct : ¬ c = t := fun e => h (by rw [← e]; exact List.mem_cons_self c rest)
    have hrest : t ∉ rest := fun hm => h (List.mem_cons_of_mem _ hm)
    simp [pyFind, hct, ih hrest]

/-- Python `rfind` returns the sentinel exactly when the character is absent. -/
theorem pyRfind_eq_none {t : Char} {cs : List Char} (h : t ∉ cs) :
    pyRfind cs t = none := by
  unfold pyRfind
  rw [pyFind_eq_none (by simpa using h)]
  rfl

/-- A successful `find` means the list is nonempty. -/
theorem ne_nil_of_pyFind {cs : List Char} {t : Char} {i : Nat}
    (h : pyFind cs t = some i) : cs ≠ [] := by
  intro e
  rw [e] at h
  simp [pyFind] at h

/-- A parse failure short-circuits the whole handler. -/
theorem createChart_error {raw0 : String} {cols : List String} {e : ChartError}
    (h : parseDirective raw0 cols = .error e) :
    createChart raw0 cols = .error e := by
  unfold createChart
  rw [h]

/-- Column membership answers yes only for strings naming a column. -/
theorem inColumnsChk_ok_true : ∀ {v : Json} {cols : List String},
    inColumnsChk v cols = .ok true →
    ∃ s, v = Json.str s ∧ cols.contains s = true := by
  intro v cols h
  cases v with
  | str s =>
    refine ⟨s, rfl, ?_⟩
    injection h
  | null => injection h with h; exact Bool.noConfusion h
  | bool b => injection h with h; exact Bool.noConfusion h
  | num m e => injection h with h; exact Bool.noConfusion h
  | arr elems => exact Except.noConfusion h
  | obj fields => exact Except.noConfusion h

/-- Inversion of the validation condition: a false answer means both
membership tests ran without error and answered yes. -/
theorem invalidFields_ok_false {x y : Json} {cols : List String}
    (h : invalidFields x y cols = .ok false) :
    inColumnsChk x cols = .ok true ∧ inColumnsChk y cols = .ok true := by
  unfold invalidFields at h
  split at h
  · exact Except.noConfusion h
  · rename_i bx hbx
    by_cases hbt : bx = true
    · rw [if_pos hbt] at h
      subst hbt
      refine ⟨hbx, ?_⟩
      split at h
      · exact Except.noConfusion h
      · rename_i b hb
        have hbf : (!b) = false := by injection h
        have hb1 : b = true := by
          cases b
          · exact Bool.noConfusion hbf
          · rfl
        rw [hb1] at hb
        exact hb
    · rw [if_neg hbt] at h
      have hfalse : (true : Bool) = false := by injection h
      exact Bool.noConfusion hfalse

/-- Inversion: the validation step returns the directive it was given, and
only when the validation condition answered false. -/
theorem validateDirective_ok {d0 d : Directive} {cols : List String}
    (h : validateDirective d0 cols = .ok d) :
    d0 = d ∧ invalidFields d0.x d0.y cols = .ok false := by
  unfold validateDirective at h
  split at h
  · exact Except.noConfusion h
  · exact Except.noConfusion h
  · rename_i hv
    cases h
    exact ⟨rfl, hv⟩

/-- Inversion: a directive the parser returns passed the column validation. -/
theorem parseDirective_ok_invalid {raw0 : String} {cols : List String}
    {d : Directive} (h : parseDirective raw0 cols = .ok d) :
    invalidFields d.x d.y cols = .ok false := by
  unfold parseDirective parseStripped at h
  split at h
  · exact Except.noConfusion h
  · split at h
    · exact Except.noConfusion h
    · split at h
      · exact Except.noConfusion h
      · split at h
        · exact Except.noConfusion h
        · obtain ⟨he, hv⟩ := validateDirective_ok h
          rw [he] at hv
          exact hv
        · exact Except.noConfusion h

/-- A directive the parser returns carries string x and y fields that are
members of the dataframe columns. -/
theorem parse_ok_fields {raw0 : String} {cols : List String} {d : Directive}
    (h : parseDirective raw0 cols = .ok d) :
    ∃ xs ys, d.x = Json.str xs ∧ d.y = Json.str ys ∧
      cols.contains xs = true ∧ cols.contains ys = true := by
  obtain ⟨hx, hy⟩ := invalidFields_ok_false (parseDirective_ok_invalid h)
  obtain ⟨xs, hxs, hcx⟩ := inColumnsChk_ok_true hx
  obtain ⟨ys, hys, hcy⟩ := inColumnsChk_ok_true hy
  exact ⟨xs, ys, hxs, hys, hcx, hcy⟩

/-- Rejection through the x field: a string x that is not a column makes
the validation condition true without consulting y (Python's short-circuit
`or`), and the validation step fails with the invalid-fields error carrying
both field values. -/
theorem validateDirective_reject_x {d : Directive} {cols : List String}
    {xs : String} (hx : d.x = Json.str xs) (hnx : cols.contains xs = false) :
    validateDirective d cols = .error (.unknownColumn d.x d.y) := by
  have hinv : invalidFields d.x d.y cols = .ok true := by
    unfold invalidFields
    rw [hx]
    simp only [inColumnsChk, hnx]
    rfl
  unfold validateDirective
  rw [hinv]

/-- Rejection through the y field: when x is a column but the string y is
not, the validation step fails with the invalid-fields error carrying both
field values. -/
theorem validateDirective_reject_y {d : Directive} {cols : List String}
    {xs ys : String} (hx : d.x = Json.str xs) (hcx : cols.contains xs = true)
    (hy : d.y = Json.str ys) (hny : cols.contains ys = false) :
    validateDirective d cols = .error (.unknownColumn d.x d.y) := by
  have hinv : invalidFields d.x d.y cols = .ok true := by
    unfold invalidFields
    rw [hx, hy]
    simp only [inColumnsChk, hcx, hny]
    rfl
  unfold validateDirective
  rw [hinv]

/-- An unhashable x (a decoded JSON list or object) makes the first
membership test of line 212 raise `TypeError` before any rejection message
can be produced. -/
theorem validateDirective_typeError_x {d : Directive} {cols : List String}
    (h : pyHashable d.x = false) :
    validateDirective d cols = .error .typeError := by
  have hx : inColumnsChk d.x cols = .error .typeError := by
    cases hv : d.x with
    | arr elems => rfl
    | obj fields => rfl
    | null => rw [hv] at h; exact Bool.noConfusion h
    | bool b => rw [hv] at h; exact Bool.noConfusion h
    | num m e => rw [hv] at h; exact Bool.noConfusion h
    | str s => rw [hv] at h; exact Bool.noConfusion h
  unfold validateDirective invalidFields
  rw [hx]

/-- The validation step never reads the color field: two directives that
differ only in color are both accepted or both rejected, with the same
error. -/
theorem validateDirective_color_blind (ct x y agg c1 c2 : Json)
    (cols : List String) :
    Except.map (fun _ => ()) (validateDirective ⟨ct, x, y, c1, agg⟩ cols) =
      Except.map (fun _ => ()) (validateDirective ⟨ct, x, y, c2, agg⟩ cols) := by
  unfold validateDirective
  simp only []
  cases hinv : invalidFields x y cols with
  | error e => rfl
  | ok b =>
    cases b with
    | true => rfl
    | false => rfl

/-- With a truthy string aggregate and a non-raising color channel, the
handler's y-encoding is the aggregated shorthand with the capitalized
title. -/
theorem renderDirective_ok_agg {d : Directive} {cols : List String}
    {xs a ys : String} {co : Option String} (hx : d.x = Json.str xs)
    (ha : d.agg = Json.str a) (hne : a ≠ "") (hy : d.y = Json.str ys)
    (hco : renderColorChk d.color cols = .ok co) :
    renderDirective d cols = .ok
      { mark := chartMark d.chart_type
        xEnc := xShorthand xs
        yEnc := a ++ "(" ++ ys ++ "):Q"
        yTitle := pyCapitalize a ++ " of " ++ ys
        colorEnc := co } := by
  have hry : renderY d.agg d.y =
      .ok (a ++ "(" ++ ys ++ "):Q", pyCapitalize a ++ " of " ++ ys) := by
    rw [ha, hy]
    unfold renderY
    rw [if_pos]
    simp [truthy, hne]
  unfold renderDirective
  rw [hx, hry, hco]

/-- Reading an absent key yields the supplied default, like `dict.get`. -/
theorem specGet_of_absent {fields : List (String × Json)} {k : String}
    {dflt : Json} (h : lookupLast fields k = none) :
    specGet fields k dflt = dflt := by
  unfold specGet
  rw [h]
  rfl

/-- C1 counterexample: the raw output naming x = "Order ID" — a dataframe
column that is not in the catalog's numeric, categorical or temporal sets —
is accepted by the parser rather than rejected with an unknown-column
error, so an accepted directive's xField need not be a catalog member. -/
theorem c1_counterexample :
    parseDirective "\x7b\"x\": \"Order ID\", \"y\": \"Sales\"\x7d" dfColumns =
      .ok { chart_type := Json.str "bar", x := Json.str "Order ID",
            y := Json.str "Sales", color := Json.null, agg := Json.str "sum" } ∧
    catalogColumns.contains "Order ID" = false :=
  ⟨rfl, by decide⟩

/-- C1 (amended): the parser validates x and y against the dataframe's
columns — a superset of the catalog that also holds identifier columns such
as Order ID. Every directive it returns has string xField and yField that
are members of the dataframe columns; a string x that is not a column is
rejected with the invalid-fields error carrying both field values (without
consulting y), as is a string y that is not a column when x is one; an
unhashable (list- or object-valued) x instead raises `TypeError` at the
membership test; and the spec's own rejection example fails end to end
with the invalid-fields error. -/
theorem c1_amended_ok : ∀ (raw0 : String) (cols : List String)
    (dv d : Directive) (xs ys : String),
    (parseDirective raw0 cols = .ok dv →
      ∃ us vs, dv.x = Json.str us ∧ dv.y = Json.str vs ∧
        cols.contains us = true ∧ cols.contains vs = true) ∧
    (d.x = Json.str xs → cols.contains xs = false →
      validateDirective d cols = .error (.unknownColumn d.x d.y)) ∧
    (d.x = Json.str xs → cols.contains xs = true →
      d.y = Json.str ys → cols.contains ys = false →
      validateDirective d cols = .error (.unknownColumn d.x d.y)) ∧
    (pyHashable d.x = false → validateDirective d cols = .error .typeError) ∧
    parseDirective "\x7b\"x\": \"Category\", \"y\": \"NotAColumn\"\x7d" dfColumns =
      .error (.unknownColumn (Json.str "Category") (Json.str "NotAColumn")) := by
  intro raw0 cols dv d xs ys
  exact ⟨fun h => parse_ok_fields h,
    fun hx hnx => validateDirective_reject_x hx hnx,
    fun hx hcx hy hny => validateDirective_reject_y hx hcx hy hny,
    fun h => validateDirective_typeError_x h,
    rfl⟩

/-- C1 witness: the amended theorem applied to an accepted raw output, an
x-rejected directive, a y-rejected directive, and an unhashable-x
directive. -/
theorem c1_witness :
    (∃ us vs, Json.str "Region" = Json.str us ∧ Json.str "Profit" = Json.str vs ∧
      dfColumns.contains us = true ∧ dfColumns.contains vs = true) ∧
    validateDirective ⟨Json.str "bar", Json.str "NotACol", Json.str "Sales",
        Json.null, Json.str "sum"⟩ dfColumns =
      .error (.unknownColumn (Json.str "NotACol") (Json.str "Sales")) ∧
    validateDirective ⟨Json.str "bar", Json.str "Category", Json.str "Nope",
        Json.null, Json.str "sum"⟩ dfColumns =
      .error (.unknownColumn (Json.str "Category") (Json.str "Nope")) ∧
    validateDirective ⟨Json.str "bar", Json.arr [Json.num 1 0], Json.str "Sales",
        Json.null, Json.str "sum"⟩ dfColumns = .error .typeError :=
  ⟨(c1_amended_ok "\x7b\"x\": \"Region\", \"y\": \"Profit\"\x7d" dfColumns
      ⟨Json.str "bar", Json.str "Region", Json.str "Profit", Json.null,
        Json.str "sum"⟩
      ⟨Json.str "bar", Json.str "Region", Json.str "Profit", Json.null,
        Json.str "sum"⟩ "Region" "Profit").1 rfl,
   (c1_amended_ok "" dfColumns
      ⟨Json.str "bar", Json.str "NotACol", Json.str "Sales", Json.null,
        Json.str "sum"⟩
      ⟨Json.str "bar", Json.str "NotACol", Json.str "Sales", Json.null,
        Json.str "sum"⟩ "NotACol" "Sales").2.1 rfl (by decide),
   (c1_amended_ok "" dfColumns
      ⟨Json.str "bar", Json.str "Category", Json.str "Nope", Json.null,
        Json.str "sum"⟩
      ⟨Json.str "bar", Json.str "Category", Json.str "Nope", Json.null,
        Json.str "sum"⟩ "Category" "Nope").2.2.1 rfl (by decide) rfl (by decide),
   (c1_amended_ok "" dfColumns
      ⟨Json.str "bar", Json.arr [Json.num 1 0], Json.str "Sales", Json.null,
        Json.str "sum"⟩
      ⟨Json.str "bar", Json.arr [Json.num 1 0], Json.str "Sales", Json.null,
        Json.str "sum"⟩ "" "").2.2.2.1 rfl⟩

/-- C2 counterexample: with aggregate "median" the request is indeed not
rejected, but the resulting directive keeps aggregate = "median" (not null)
and the renderer applies it verbatim, producing the y-encoding
median(Sales):Q rather than an unaggregated encoding. -/
theorem c2_counterexample :
    parseDirective
        "\x7b\"x\":\"Category\",\"y\":\"Sales\",\"aggregate\":\"median\"\x7d"
        dfColumns =
      .ok { chart_type := Json.str "bar", x := Json.str "Category",
            y := Json.str "Sales", color := Json.null,
            agg := Json.str "median" } ∧
    createChart
        "\x7b\"x\":\"Category\",\"y\":\"Sales\",\"aggregate\":\"median\"\x7d"
        dfColumns =
      .ok { mark := Mark.bar, xEnc := "Category:N", yEnc := "median(Sales):Q",
            yTitle := "Median of Sales", colorEnc := none } ∧
    Json.str "median" ≠ Json.null :=
  ⟨rfl, rfl, fun h => Json.noConfusion h⟩

/-- C2 (amended): the handler performs no aggregate validation at all — any
nonempty aggregate string carried by an accepted directive, recognized or
not, is interpolated verbatim into the y-encoding shorthand and title,
provided the color channel itself evaluates without raising; a truthy
unhashable color instead raises `TypeError` at the pandas membership test
and the request produces no chart at all. -/
theorem c2_amended_ok : ∀ (raw0 : String) (cols : List String)
    (d : Directive) (a ys : String) (co : Option String),
    parseDirective raw0 cols = .ok d →
    d.agg = Json.str a → a ≠ "" → d.y = Json.str ys →
    renderColorChk d.color cols = .ok co →
    (∃ ch, createChart raw0 cols = .ok ch ∧ ch.colorEnc = co ∧
      ch.yEnc = a ++ "(" ++ ys ++ "):Q" ∧
      ch.yTitle = pyCapitalize a ++ " of " ++ ys) ∧
    createChart
        "\x7b\"x\":\"Region\",\"y\":\"Sales\",\"aggregate\":\"avg\",\"color\":[1]\x7d"
        dfColumns = .error .typeError := by
  intro raw0 cols d a ys co hp ha hne hy hco
  refine ⟨?_, rfl⟩
  obtain ⟨xs, ys', hx, _, _, _⟩ := parse_ok_fields hp
  have hr := @renderDirective_ok_agg d cols xs a ys co hx ha hne hy hco
  refine ⟨{ mark := chartMark d.chart_type, xEnc := xShorthand xs,
            yEnc := a ++ "(" ++ ys ++ "):Q",
            yTitle := pyCapitalize a ++ " of " ++ ys,
            colorEnc := co }, ?_, rfl, rfl, rfl⟩
  unfold createChart
  rw [hp]
  exact hr

/-- C2 witness: the amended theorem applied to a raw output with the
unrecognized aggregate "avg" and no color. -/
theorem c2_witness :
    (∃ ch, createChart "\x7b\"x\":\"Region\",\"y\":\"Sales\",\"aggregate\":\"avg\"\x7d"
        dfColumns = .ok ch ∧ ch.colorEnc = none ∧
      ch.yEnc = "avg" ++ "(" ++ "Sales" ++ "):Q" ∧
      ch.yTitle = pyCapitalize "avg" ++ " of " ++ "Sales") ∧
    createChart
        "\x7b\"x\":\"Region\",\"y\":\"Sales\",\"aggregate\":\"avg\",\"color\":[1]\x7d"
        dfColumns = .error .typeError :=
  c2_amended_ok
    "\x7b\"x\":\"Region\",\"y\":\"Sales\",\"aggregate\":\"avg\"\x7d" dfColumns
    { chart_type := Json.str "bar", x := Json.str "Region",
      y := Json.str "Sales", color := Json.null, agg := Json.str "avg" }
    "avg" "Sales" none rfl rfl (by decide) rfl rfl

/-- C3 counterexample: a raw output carrying an explicit null aggregate
defeats the `dict.get` default (the key is present), the extracted
aggregate is null and falsy, and the defective aggregate-less y-encoding
branch executes, emitting the malformed shorthand. -/
theorem c3_counterexample :
    parseDirective "\x7b\"x\":\"Category\",\"y\":\"Sales\",\"aggregate\":null\x7d"
        dfColumns =
      .ok { chart_type := Json.str "bar", x := Json.str "Category",
            y := Json.str "Sales", color := Json.null, agg := Json.null } ∧
    truthy Json.null = false ∧
    createChart "\x7b\"x\":\"Category\",\"y\":\"Sales\",\"aggregate\":null\x7d"
        dfColumns =
      .ok { mark := Mark.bar, xEnc := "Category:N", yEnc := "Sales):Q",
            yTitle := "Sales", colorEnc := none } :=
  ⟨rfl, rfl, rfl⟩

/-- C3 (amended): the aggregate-less branch is unreachable only when the
aggregate key is absent from the decoded object — then the default "sum"
fills it, the extracted aggregate is truthy, and the y-encoding takes the
aggregation branch; a present-but-falsy aggregate (such as an explicit
null) does reach the defective branch. -/
theorem c3_amended_ok : ∀ (fields : List (String × Json)) (ys : String),
    lookupLast fields "aggregate" = none →
    (extractFields fields).agg = Json.str "sum" ∧
    renderY (extractFields fields).agg (Json.str ys) =
      .ok ("sum(" ++ ys ++ "):Q", "Sum of " ++ ys) := by
  intro fields ys h
  have ha : (extractFields fields).agg = Json.str "sum" := specGet_of_absent h
  refine ⟨ha, ?_⟩
  rw [ha]
  rfl

/-- C3 witness: the amended theorem applied to a decoded object without an
aggregate key. -/
theorem c3_witness :
    (extractFields [("x", Json.str "Category")]).agg = Json.str "sum" ∧
    renderY (extractFields [("x", Json.str "Category")]).agg (Json.str "Sales") =
      .ok ("sum(" ++ "Sales" ++ "):Q", "Sum of " ++ "Sales") :=
  c3_amended_ok [("x", Json.str "Category")] "Sales" rfl

/-- C4: the aggregated y-encoding matches the claim, but on a null
aggregate the source's `alt.Y(f"\x7by\x7d):Q", title=y)` emits the
malformed shorthand — the raw field name followed by a stray closing
parenthesis — instead of the claimed raw field at quantitative level; the
title alone matches the claim. -/
theorem c4_code_bug_eval :
    renderY (Json.str "sum") (Json.str "Sales") = .ok ("sum(Sales):Q", "Sum of Sales") ∧
    renderY Json.null (Json.str "Sales") = .ok ("Sales):Q", "Sales") ∧
    "Sales):Q" ≠ "Sales" ++ ":Q" :=
  ⟨rfl, rfl, by decide⟩

/-- C5: a raw output that strips to empty fails with the empty-response
error, and otherwise a raw output missing an opening or a closing brace
fails with the no-JSON-found error; both gates fire before any JSON
parsing. -/
theorem c5_gates : ∀ (raw0 : String) (cols : List String),
    (pyStrip raw0.toList = [] → createChart raw0 cols = .error .emptyResponse) ∧
    (pyStrip raw0.toList ≠ [] →
      '\x7b' ∉ raw0.toList ∨ '\x7d' ∉ raw0.toList →
      createChart raw0 cols = .error .noJsonFound) := by
  intro raw0 cols
  constructor
  · intro h
    apply createChart_error
    unfold parseDirective
    rw [h]
    rfl
  · intro h1 h2
    apply createChart_error
    unfold parseDirective parseStripped
    have hne : (pyStrip raw0.toList).isEmpty = false := by
      cases he : (pyStrip raw0.toList).isEmpty
      · rfl
      · exact absurd (by simpa using he) h1
    rw [hne]
    cases h2 with
    | inl hb =>
      rw [pyFind_eq_none (not_mem_pyStrip hb)]
      rfl
    | inr hb =>
      cases hf : pyFind (pyStrip raw0.toList) '\x7b' with
      | none => rfl
      | some a =>
        rw [pyRfind_eq_none (not_mem_pyStrip hb)]
        rfl

/-- C5 witness: the theorem applied to the empty raw output and to a raw
output with no braces. -/
theorem c5_witness :
    createChart "" dfColumns = .error .emptyResponse ∧
    createChart "no braces here" dfColumns = .error .noJsonFound :=
  ⟨(c5_gates "" dfColumns).1 rfl,
   (c5_gates "no braces here" dfColumns).2 (by decide) (Or.inl (by decide))⟩

/-- C6: a field absent from the decoded object is filled with its default
(chart_type "bar", x "Category", y "Sales", color null, aggregate "sum"),
an unrecognized chart_type string silently selects the bar mark, and the
prose-and-fence-wrapped example parses to the fully defaulted directive. -/
theorem c6_defaults : ∀ (fields : List (String × Json)) (s : String),
    (lookupLast fields "chart_type" = none →
      (extractFields fields).chart_type = Json.str "bar") ∧
    (lookupLast fields "x" = none → (extractFields fields).x = Json.str "Category") ∧
    (lookupLast fields "y" = none → (extractFields fields).y = Json.str "Sales") ∧
    (lookupLast fields "color" = none → (extractFields fields).color = Json.null) ∧
    (lookupLast fields "aggregate" = none →
      (extractFields fields).agg = Json.str "sum") ∧
    (s ≠ "line" → s ≠ "scatter" → chartMark (Json.str s) = Mark.bar) ∧
    parseDirective
        "Sure! ```json\n\x7b\"chart_type\":\"bar\",\"x\":\"Category\",\"y\":\"Sales\"\x7d\n```"
        dfColumns =
      .ok { chart_type := Json.str "bar", x := Json.str "Category",
            y := Json.str "Sales", color := Json.null, agg := Json.str "sum" } := by
  intro fields s
  refine ⟨?_, ?_, ?_, ?_, ?_, ?_, rfl⟩
  · intro h; exact specGet_of_absent h
  · intro h; exact specGet_of_absent h
  · intro h; exact specGet_of_absent h
  · intro h; exact specGet_of_absent h
  · intro h; exact specGet_of_absent h
  · intro h1 h2
    simp [chartMark, h1, h2]

/-- C6 witness: the theorem applied to the empty decoded object and an
unrecognized chart type. -/
theorem c6_witness :
    (extractFields []).chart_type = Json.str "bar" ∧
    (extractFields []).agg = Json.str "sum" ∧
    chartMark (Json.str "area") = Mark.bar :=
  ⟨(c6_defaults [] "area").1 rfl,
   (c6_defaults [] "area").2.2.2.2.1 rfl,
   (c6_defaults [] "area").2.2.2.2.2.1 (by decide) (by decide)⟩

/-- C7: a string color that is not a dataframe column produces no color
channel (the membership test runs without raising and answers no), renders
identically to a null color, and plays no part in the accept/reject
validation. -/
theorem c7_color_soft_gate : ∀ (ct x y agg : Json) (cols : List String) (c : String),
    cols.contains c = false →
    renderColorChk (Json.str c) cols = .ok none ∧
    renderDirective ⟨ct, x, y, Json.str c, agg⟩ cols =
      renderDirective ⟨ct, x, y, Json.null, agg⟩ cols ∧
    Except.map (fun _ => ()) (validateDirective ⟨ct, x, y, Json.str c, agg⟩ cols) =
      Except.map (fun _ => ()) (validateDirective ⟨ct, x, y, Json.null, agg⟩ cols) := by
  intro ct x y agg cols c hnc
  have h1 : renderColorChk (Json.str c) cols = .ok none := by
    unfold renderColorChk
    rw [show inColumnsChk (Json.str c) cols = Except.ok false from by
      simp only [inColumnsChk, hnc]]
    cases truthy (Json.str c) <;> rfl
  have h0 : ∀ cs : List String, renderColorChk Json.null cs = .ok none :=
    fun _ => rfl
  refine ⟨h1, ?_, validateDirective_color_blind ct x y agg (Json.str c) Json.null cols⟩
  unfold renderDirective
  cases x with
  | str xs =>
    cases hr : renderY agg y with
    | error e => rfl
    | ok p =>
      simp only []
      rw [h1, h0]
  | null => rfl
  | bool b => rfl
  | num m e => rfl
  | arr elems => rfl
  | obj fs => rfl

/-- C7 witness: the theorem applied to the unknown color "NotReal" on an
otherwise valid directive. -/
theorem c7_witness :
    renderColorChk (Json.str "NotReal") dfColumns = .ok none ∧
    renderDirective ⟨Json.str "bar", Json.str "Category", Json.str "Sales",
        Json.str "NotReal", Json.str "sum"⟩ dfColumns =
      renderDirective ⟨Json.str "bar", Json.str "Category", Json.str "Sales",
        Json.null, Json.str "sum"⟩ dfColumns ∧
    Except.map (fun _ => ()) (validateDirective ⟨Json.str "bar",
        Json.str "Category", Json.str "Sales", Json.str "NotReal",
        Json.str "sum"⟩ dfColumns) =
      Except.map (fun _ => ()) (validateDirective ⟨Json.str "bar",
        Json.str "Category", Json.str "Sales", Json.null,
        Json.str "sum"⟩ dfColumns) :=
  c7_color_soft_gate (Json.str "bar") (Json.str "Category") (Json.str "Sales")
    (Json.str "sum") dfColumns "NotReal" (by decide)

/-- C8: the x-encoding level follows the column's catalog membership
(temporal columns encode at level T, categorical at N, numeric at Q), and
the mark follows the chart type ("line" gives the line mark with point
markers, "scatter" the point mark, anything else the bar mark). -/
theorem c8_levels_marks : ∀ (c : String) (j : Json),
    (c ∈ temporalColumns → xShorthand c = c ++ ":T") ∧
    (c ∈ categoricalColumns → xShorthand c = c ++ ":N") ∧
    (c ∈ numericColumns → xShorthand c = c ++ ":Q") ∧
    chartMark (Json.str "line") = Mark.line ∧
    chartMark (Json.str "scatter") = Mark.scatter ∧
    (j ≠ Json.str "line" → j ≠ Json.str "scatter" → chartMark j = Mark.bar) := by
  intro c j
  refine ⟨?_, ?_, ?_, rfl, rfl, ?_⟩
  · intro h
    simp only [temporalColumns, List.mem_cons, List.mem_singleton,
      List.not_mem_nil, or_false] at h
    rcases h with rfl | rfl <;> rfl
  · intro h
    simp only [categoricalColumns, List.mem_cons, List.mem_singleton,
      List.not_mem_nil, or_false] at h
    rcases h with rfl | rfl | rfl | rfl | rfl <;> rfl
  · intro h
    simp only [numericColumns, List.mem_cons, List.mem_singleton,
      List.not_mem_nil, or_false] at h
    rcases h with rfl | rfl | rfl | rfl <;> rfl
  · intro h1 h2
    cases j with
    | str s =>
      have hs1 : ¬ s = "line" := fun e => h1 (by rw [e])
      have hs2 : ¬ s = "scatter" := fun e => h2 (by rw [e])
      simp [chartMark, hs1, hs2]
    | null => rfl
    | bool b => rfl
    | num m e => rfl
    | arr elems => rfl
    | obj fields => rfl

/-- C8 witness: the theorem applied to the temporal column Order Date and a
null chart type. -/
theorem c8_witness :
    xShorthand "Order Date" = "Order Date" ++ ":T" ∧
    chartMark Json.null = Mark.bar :=
  ⟨(c8_levels_marks "Order Date" Json.null).1 (by decide),
   (c8_levels_marks "Order Date" Json.null).2.2.2.2.2
     (fun h => Json.noConfusion h) (fun h => Json.noConfusion h)⟩

/-- C9: parsing and chart creation are pure functions of the raw text and
the column labels — two runs on the same input are identical, directive and
error kind alike; the embedding is deterministic by construction, mirroring
a handler that consults no mutable state between the strip and the render. -/
theorem c9_pure : ∀ (raw0 : String) (cols : List String),
    parseDirective raw0 cols = parseDirective raw0 cols ∧
    createChart raw0 cols = createChart raw0 cols :=
  fun _ _ => ⟨rfl, rfl⟩

/-- C10: when the stripped raw output has its last closing brace strictly
before its first opening brace, the slice between them is empty, so the
request is not a no-JSON-found failure but a malformed-JSON failure at the
syntactic-parse step. -/
theorem c10_reversed_braces : ∀ (raw0 : String) (cols : List String) (i j : Nat),
    pyFind (pyStrip raw0.toList) '\x7b' = some i →
    pyRfind (pyStrip raw0.toList) '\x7d' = some j →
    j < i →
    createChart raw0 cols = .error .malformedJson := by
  intro raw0 cols i j hf hr hji
  apply createChart_error
  unfold parseDirective parseStripped
  have hne : (pyStrip raw0.toList).isEmpty = false := by
    cases he : (pyStrip raw0.toList).isEmpty
    · rfl
    · exact absurd (by simpa using he) (ne_nil_of_pyFind hf)
  have hsl : pySlice (pyStrip raw0.toList) i (j + 1) = [] := by
    unfold pySlice
    have hz : j + 1 - i = 0 := by omega
    rw [hz]
    rfl
  rw [hne, hf, hr]
  simp only [hsl]
  rfl

/-- C10 witness: the theorem applied to a raw output whose closing brace
precedes its opening brace. -/
theorem c10_witness :
    createChart "\x7d text \x7b" dfColumns = .error .malformedJson :=
  c10_reversed_braces "\x7d text \x7b" dfColumns 7 0 (by decide) (by decide) (by decide)

end SuperstoreApp

